import Mathlib

/-!
Shallow embedding of the LinkedScraper browser extension
(src/js/content.js and src/js/popup.js).

DOM nodes are modelled as explicit values carrying the texts and attributes
the scraper reads; the results of querySelector / querySelectorAll are
oracles carried by each candidate card; a JavaScript exception raised by a
DOM query is modelled with Except Unit.  All definitions are computable so
that concrete candidates can be evaluated inside proofs.
-/

set_option autoImplicit false

/-! ### JavaScript string primitives, modelled on lists of characters -/

/-- JavaScript `a || b` on strings: the empty string is falsy. -/
def jsOr (a b : String) : String := if a = "" then b else a

/-- Is `p` a prefix of `l`? (decidable, executable). -/
def lprefix : List Char → List Char → Bool
  | [], _ => true
  | _ :: _, [] => false
  | p :: ps, c :: cs => p == c && lprefix ps cs

/-- Index of the first occurrence of `pat` in `l` (`String.prototype.indexOf`,
with `none` standing for the JavaScript result `-1`). -/
def lfind (pat : List Char) : List Char → Option Nat
  | [] => if pat.isEmpty then some 0 else none
  | c :: rest =>
    if lprefix pat (c :: rest) then some 0
    else (lfind pat rest).map (· + 1)

/-- JavaScript `String.prototype.includes`. -/
def jsIncludes (s pat : String) : Bool := (lfind pat.data s.data).isSome

/-- JavaScript `String.prototype.indexOf` (as an `Option Nat`). -/
def jsIndexOf (s pat : String) : Option Nat := lfind pat.data s.data

/-- Worker for `jsSplit`: `acc` is the current (reversed) segment.  The
fuel argument (at least the input length) makes the recursion structural,
so the kernel can evaluate it; every step consumes at least one input
character, so the fuel-exhausted branch is unreachable when the fuel is
the input length. -/
def lsplitAux (pat : List Char) : Nat → List Char → List Char → List (List Char)
  | _, [], acc => [acc.reverse]
  | 0, l, acc => [acc.reverse ++ l]
  | fuel + 1, c :: rest, acc =>
    if pat ≠ [] ∧ lprefix pat (c :: rest) then
      acc.reverse :: lsplitAux pat fuel (List.drop (pat.length - 1) rest) []
    else
      lsplitAux pat fuel rest (c :: acc)

/-- JavaScript `String.prototype.split` on a non-empty string separator. -/
def jsSplit (s pat : String) : List String :=
  if pat = "" then [s] else (lsplitAux pat.data s.data.length s.data []).map String.mk

/-- `parts[i]` on the result of a split, defaulting to the empty string. -/
def jsPart (parts : List String) (i : Nat) : String := parts.getD i ""

/-- JavaScript `String.prototype.trim`. -/
def jsTrim (s : String) : String :=
  String.mk (((s.data.dropWhile Char.isWhitespace).reverse.dropWhile Char.isWhitespace).reverse)

/-- JavaScript `String.prototype.startsWith`. -/
def jsStartsWith (s pre : String) : Bool := lprefix pre.data s.data

/-- JavaScript `String.prototype.substring(i)` (to end of string). -/
def jsSubstringFrom (s : String) (i : Nat) : String := String.mk (s.data.drop i)

/-- JavaScript `String.prototype.substring(i, j)` with `i ≤ j`. -/
def jsSubstring (s : String) (i j : Nat) : String := String.mk ((s.data.take j).drop i)

/-! ### A small regular-expression engine

The scraper uses a handful of JavaScript regular expressions.  They are
embedded as explicit syntax trees (`Rx`) interpreted by a backtracking
matcher with JavaScript semantics: alternation is leftmost-first, `*` is
greedy, `*?` is lazy, `?` is greedy, a quantified subexpression stops
repeating when it matches the empty string, and `.` matches anything but a
line terminator.  The matcher enumerates candidate matches in priority
order; a fuel argument bounds the recursion depth (chosen large enough for
every pattern/input pair occurring here). -/

/-- One atom of a character class. -/
inductive CAtom where
  | ch (c : Char)
  | range (lo hi : Char)
  | wsA
deriving DecidableEq

/-- Does `c` match atom `a` (with case-insensitivity flag `ci`)? -/
def atomMatch (ci : Bool) (a : CAtom) (c : Char) : Bool :=
  match a with
  | .ch x => c == x || (ci && (c.toLower == x.toLower))
  | .range lo hi =>
      (lo ≤ c && c ≤ hi) ||
      (ci && ((lo ≤ c.toLower && c.toLower ≤ hi) || (lo ≤ c.toUpper && c.toUpper ≤ hi)))
  | .wsA => c.isWhitespace

/-- Does `c` match the (possibly negated) class with the given atoms? -/
def ccMatch (ci : Bool) (neg : Bool) (atoms : List CAtom) (c : Char) : Bool :=
  let m := atoms.any (fun a => atomMatch ci a c)
  if neg then !m else m

/-- Regular-expression syntax trees. -/
inductive Rx where
  | eps
  | cls (neg : Bool) (atoms : List CAtom)
  | seq (a b : Rx)
  | alt (a b : Rx)
  | starG (r : Rx)
  | starL (r : Rx)
  | opt (r : Rx)
  | group (idx : Nat) (r : Rx)
  | eos
deriving DecidableEq

/-- Captured groups: group index to captured characters (last write wins). -/
abbrev Caps := List (Nat × List Char)

/-- Record a capture. -/
def setCap (caps : Caps) (i : Nat) (v : List Char) : Caps :=
  (i, v) :: caps.filter (fun p => p.1 ≠ i)

/-- Look up a capture. -/
def getCap (caps : Caps) (i : Nat) : Option (List Char) :=
  (caps.find? (fun p => p.1 == i)).map (·.2)

/-- All ways `r` can match a prefix of `s`, as `(remaining input, captures)`
pairs in JavaScript priority order (first = preferred). -/
def mrx (ci : Bool) : Nat → Rx → List Char → Caps → List (List Char × Caps)
  | 0, _, _, _ => []
  | fuel + 1, r, s, caps =>
    match r with
    | .eps => [(s, caps)]
    | .cls neg atoms =>
      match s with
      | [] => []
      | c :: rest => if ccMatch ci neg atoms c then [(rest, caps)] else []
    | .seq a b =>
      (mrx ci fuel a s caps).flatMap (fun p => mrx ci fuel b p.1 p.2)
    | .alt a b => mrx ci fuel a s caps ++ mrx ci fuel b s caps
    | .opt r1 => mrx ci fuel r1 s caps ++ [(s, caps)]
    | .starG r1 =>
      ((mrx ci fuel r1 s caps).flatMap (fun p =>
        if p.1.length == s.length then [] else mrx ci fuel (.starG r1) p.1 p.2)) ++ [(s, caps)]
    | .starL r1 =>
      (s, caps) :: ((mrx ci fuel r1 s caps).flatMap (fun p =>
        if p.1.length == s.length then [] else mrx ci fuel (.starL r1) p.1 p.2))
    | .group i r1 =>
      (mrx ci fuel r1 s caps).map (fun p =>
        (p.1, setCap p.2 i (s.take (s.length - p.1.length))))
    | .eos => if s.isEmpty then [(s, caps)] else []

/-- A crude structural size of a pattern, used only to pick enough fuel. -/
def rxSize : Rx → Nat
  | .eps => 1
  | .cls _ _ => 1
  | .seq a b => rxSize a + rxSize b + 1
  | .alt a b => rxSize a + rxSize b + 1
  | .starG r => rxSize r + 1
  | .starL r => rxSize r + 1
  | .opt r => rxSize r + 1
  | .group _ r => rxSize r + 1
  | .eos => 1

/-- Fuel that bounds the matcher recursion depth for pattern `r` on `s`. -/
def rxFuel (r : Rx) (s : List Char) : Nat := (rxSize r + 2) * (s.length + 2) * 2

/-- Try to match `r` at the start of `s` (JavaScript `regex.exec` anchored at
the current position); returns the captures of the preferred match. -/
def rxMatchAt (ci : Bool) (r : Rx) (s : List Char) : Option Caps :=
  match mrx ci (rxFuel r s) r s [] with
  | [] => none
  | p :: _ => some p.2

/-- Search for the leftmost match of `r` in `s` (JavaScript `match`/`test`). -/
def rxSearch (ci : Bool) (r : Rx) : List Char → Option Caps
  | [] => rxMatchAt ci r []
  | c :: rest =>
    match rxMatchAt ci r (c :: rest) with
    | some caps => some caps
    | none => rxSearch ci r rest

/-- JavaScript `regex.test(s)`. -/
def rxTest (ci : Bool) (r : Rx) (s : String) : Bool := (rxSearch ci r s.data).isSome

/-- Group `i` of the leftmost match, as a string (`none` when the group did
not participate in the match, i.e. JavaScript `undefined`). -/
def rxGroup (caps : Caps) (i : Nat) : Option String :=
  (getCap caps i).map String.mk

/-! Pattern building blocks. -/

def rseq : List Rx → Rx
  | [] => .eps
  | [r] => r
  | r :: rs => .seq r (rseq rs)

/-- A literal string, one class per character. -/
def rlit (str : String) : Rx := rseq (str.data.map (fun c => Rx.cls false [CAtom.ch c]))

def rws : Rx := .cls false [CAtom.wsA]

/-- `\s*` (greedy). -/
def rws0 : Rx := .starG rws

/-- `\s+` (greedy). -/
def rws1 : Rx := .seq rws (.starG rws)

/-- `.` — anything but a line terminator. -/
def rdot : Rx :=
  .cls true [.ch (Char.ofNat 10), .ch (Char.ofNat 13), .ch (Char.ofNat 0x2028), .ch (Char.ofNat 0x2029)]

/-- `.*?` (lazy). -/
def rlazyDots : Rx := .starL rdot

/-- `r+` as `r r*`. -/
def rplus (r : Rx) : Rx := .seq r (.starG r)

/-- First-match-wins alternation of a list of patterns. -/
def ralts : List Rx → Rx
  | [] => .cls false []
  | [r] => r
  | r :: rs => .alt r (ralts rs)

/-! ### The concrete regular expressions of content.js -/

def bulletChar : Char := Char.ofNat 0x2022

def pipeChar : Char := Char.ofNat 124

def aposChar : Char := Char.ofNat 39

/-- `(?:\s*$|\s*[•|])` — the common tail of the `Current:` patterns. -/
def rCurrentTail : Rx :=
  .alt (.seq rws0 .eos) (.seq rws0 (.cls false [.ch bulletChar, .ch pipeChar]))

/-- content.js line 1245:
`/Current:\s*Senior\s+Marketing\s+Manager:\s*Product\s+Marketing\s*&\s*Sales\s+Enablement\s+at\s+Intuit/i`. -/
def exactPattern : Rx :=
  rseq [rlit "Current:", rws0, rlit "Senior", rws1, rlit "Marketing", rws1, rlit "Manager:",
    rws0, rlit "Product", rws1, rlit "Marketing", rws0, rlit "&", rws0, rlit "Sales", rws1,
    rlit "Enablement", rws1, rlit "at", rws1, rlit "Intuit"]

/-- content.js line 1257: `/Current:\s*(.*?)\s+at\s+Intuit/i`. -/
def fullTitlePattern : Rx :=
  rseq [rlit "Current:", rws0, .group 1 rlazyDots, rws1, rlit "at", rws1, rlit "Intuit"]

/-- content.js line 1274: `/Current:\s*(.*?)\s*at\s*(.*?)(?:\s*$|\s*[•|])/i`. -/
def basicPattern : Rx :=
  rseq [rlit "Current:", rws0, .group 1 rlazyDots, rws0, rlit "at", rws0, .group 2 rlazyDots,
    rCurrentTail]

/-- content.js line 1285: `/Current:\s*(.*?)(?::\s*(.*?))?\s*at\s*(.*?)(?:\s*$|\s*[•|])/i`. -/
def complexPattern : Rx :=
  rseq [rlit "Current:", rws0, .group 1 rlazyDots,
    .opt (rseq [rlit ":", rws0, .group 2 rlazyDots]),
    rws0, rlit "at", rws0, .group 3 rlazyDots, rCurrentTail]

/-- `[^a-z]` (with the `i` flag this excludes letters of both cases). -/
def rNotLower : Rx := .cls true [.range (Char.ofNat 97) (Char.ofNat 122)]

/-- `[A-Za-z]`. -/
def rAlpha : Rx := .cls false [.range (Char.ofNat 65) (Char.ofNat 90), .range (Char.ofNat 97) (Char.ofNat 122)]

/-- content.js line 1302:
`/Current:.*?((?:Senior\s+)?Marketing\s+Manager(?:[^a-z]+[A-Za-z]+)?).*?at\s+([A-Za-z0-9\s&]+)/i`. -/
def marketingPattern : Rx :=
  rseq [rlit "Current:", rlazyDots,
    .group 1 (rseq [.opt (rseq [rlit "Senior", rws1]), rlit "Marketing", rws1, rlit "Manager",
      .opt (rseq [rplus rNotLower, rplus rAlpha])]),
    rlazyDots, rlit "at", rws1,
    .group 2 (rplus (Rx.cls false [.range (Char.ofNat 65) (Char.ofNat 90),
      .range (Char.ofNat 97) (Char.ofNat 122), .range (Char.ofNat 48) (Char.ofNat 57),
      .wsA, .ch (Char.ofNat 38)]))]

/-- content.js line 1312: `/Current:\s*(.*?)(?:\s*$|\s*[•|])/i`. -/
def fallbackPatternRx : Rx := rseq [rlit "Current:", rws0, .group 1 rlazyDots, rCurrentTail]

/-- content.js line 1342: `/^([^.,;:\n\r]+)/` (matched at the start only). -/
def companyHeadPattern : Rx :=
  .group 1 (rplus (Rx.cls true [.ch (Char.ofNat 46), .ch (Char.ofNat 44), .ch (Char.ofNat 59),
    .ch (Char.ofNat 58), .ch (Char.ofNat 10), .ch (Char.ofNat 13)]))

/-- `\W` — a non-word character. -/
def rNonWord : Rx :=
  .cls true [.range (Char.ofNat 65) (Char.ofNat 90), .range (Char.ofNat 97) (Char.ofNat 122),
    .range (Char.ofNat 48) (Char.ofNat 57), .ch (Char.ofNat 95)]

/-- content.js line 1396: `/Current:\s*(.*?)(?:\s+at\s+|@\s+)(.*?)(?:$|,|\s+\W|and\s+)/i`. -/
def currentHeadlinePattern : Rx :=
  rseq [rlit "Current:", rws0, .group 1 rlazyDots,
    .alt (rseq [rws1, rlit "at", rws1]) (rseq [rlit "@", rws1]),
    .group 2 rlazyDots,
    .alt .eos (.alt (rlit ",") (.alt (rseq [rws1, rNonWord]) (rseq [rlit "and", rws1])))]

/-- content.js line 1054: `/(\d+) shared connections?/` (case-sensitive). -/
def sharedPattern : Rx :=
  rseq [.group 1 (rplus (Rx.cls false [.range (Char.ofNat 48) (Char.ofNat 57)])),
    rlit " shared connection", .opt (rlit "s")]

/-- content.js line 492: `/^[A-Za-z\s]+, [A-Za-z\s]+$/` (anchored both ends). -/
def locationShapePattern : Rx :=
  rseq [rplus (Rx.cls false [.range (Char.ofNat 65) (Char.ofNat 90),
      .range (Char.ofNat 97) (Char.ofNat 122), .wsA]),
    rlit ", ",
    rplus (Rx.cls false [.range (Char.ofNat 65) (Char.ofNat 90),
      .range (Char.ofNat 97) (Char.ofNat 122), .wsA]),
    .eos]

/-- content.js line 497:
`/^(Canada|Australia|England|France|Germany|Japan|Brazil|Mexico|Israel|India|China|Russia)$/`. -/
def countriesPattern : Rx :=
  rseq [.group 1 (ralts [rlit "Canada", rlit "Australia", rlit "England", rlit "France",
    rlit "Germany", rlit "Japan", rlit "Brazil", rlit "Mexico", rlit "Israel", rlit "India",
    rlit "China", rlit "Russia"]), .eos]

/-- content.js line 947: `/^[A-Z][a-z]+( & [A-Z][a-z]+)?$/`. -/
def industryPattern : Rx :=
  rseq [Rx.cls false [.range (Char.ofNat 65) (Char.ofNat 90)],
    rplus (Rx.cls false [.range (Char.ofNat 97) (Char.ofNat 122)]),
    .opt (.group 1 (rseq [rlit " & ", Rx.cls false [.range (Char.ofNat 65) (Char.ofNat 90)],
      rplus (Rx.cls false [.range (Char.ofNat 97) (Char.ofNat 122)])])),
    .eos]

/-! ### The DOM model

A `Card` is one candidate node.  Beyond the scalar properties the scraper
reads, it carries two oracles, `q` for `querySelector` and `qa` for
`querySelectorAll`, whose results may be a thrown exception
(`Except.error ()`), a miss, or matched elements. -/

/-- A matched DOM element, with the properties the scraper reads from it.
`href` and `closestAHref` are `""` when absent; `spans` are the results of
`link.querySelectorAll("span")` used by the deep name search. -/
inductive El where
  | mk (innerText textContent href className ariaLabel closestAHref : String) (spans : List El)

def El.innerText : El → String
  | .mk v _ _ _ _ _ _ => v

def El.textContent : El → String
  | .mk _ v _ _ _ _ _ => v

def El.href : El → String
  | .mk _ _ v _ _ _ _ => v

def El.className : El → String
  | .mk _ _ _ v _ _ _ => v

def El.ariaLabel : El → String
  | .mk _ _ _ _ v _ _ => v

def El.closestAHref : El → String
  | .mk _ _ _ _ _ v _ => v

def El.spans : El → List El
  | .mk _ _ _ _ _ _ v => v

/-- A convenience constructor: an element that only carries text. -/
def El.ofText (innerText textContent : String) : El :=
  .mk innerText textContent "" "" "" "" []

structure Card where
  tagName : String
  classList : List String
  textContent : String
  innerText : String
  clientHeight : Nat
  clientWidth : Nat
  q : String → Except Unit (Option El)
  qa : String → Except Unit (List El)

/-! ### Selector pattern data (content.js lines 239-313, 1218-1224, 1372-1385) -/

def nameSelectors : List String :=
  ["span.entity-result__title-text a",
   "span.entity-result__title-text a span span",
   "div.linked-area a span span",
   "span.entity-result__title-line a",
   ".artdeco-entity-lockup__title a",
   ".search-result__info a.search-result__result-link",
   "a[data-control-name=\"search_srp_result\"] span span",
   "h3 a span span",
   "h3 span.t-24",
   "a[href*=\"/in/\"]",
   ".app-aware-link",
   ".entity-result__title-text",
   "h2.profile-card__name",
   ".mb1 a",
   "strong.profile-name",
   ".artdeco-entity-lockup__title span span",
   "a.app-aware-link[href*=\"/in/\"] span",
   ".feed-shared-actor__name span",
   ".update-components-actor__name",
   ".update-components-actor__meta",
   ".feed-shared-actor__title"]

def titleSelectors : List String :=
  ["div.entity-result__primary-subtitle",
   ".search-result__truncate.search-result__truncate--primary",
   "div.linked-area + div.entity-result__primary-subtitle",
   ".artdeco-entity-lockup__subtitle",
   ".entity-result__summary",
   ".search-result__info p.subline-level-1",
   "div.t-14.t-black--light",
   ".entity-result__primary-subtitle",
   "p.subline-level-1",
   "div[data-test-id=\"job-title\"]",
   ".profile-position",
   ".profile-card__occupation",
   ".mb1 + div",
   ".pv-entity__secondary-title",
   "p.job-title",
   "div.profile-info"]

def companySelectors : List String :=
  ["div.entity-result__secondary-subtitle",
   ".search-result__truncate.search-result__truncate--secondary",
   ".artdeco-entity-lockup__subtitle:nth-child(2)",
   ".search-result__info p.subline-level-2",
   "div.t-14.t-black--light.t-normal:nth-child(2)",
   ".entity-result__secondary-subtitle",
   "a[data-field=\"headline\"]",
   "p.subline-level-2",
   ".company-name",
   ".profile-card__company",
   ".pv-entity__company-summary",
   "span.company",
   "a[data-control-name=\"view_company\"]"]

def locationSelectors : List String :=
  ["div.entity-result__tertiary-subtitle",
   ".artdeco-entity-lockup__caption",
   ".search-result__info p.subline-level-2",
   "div.t-12.t-black--light.t-normal",
   "div.t-14.t-normal.t-black--light",
   ".entity-result__tertiary-subtitle",
   "div[data-test-id=\"location\"]",
   ".presence-entity__content",
   "p.subline-level-2",
   ".entity-result__summary",
   ".profile-card__location",
   ".location",
   ".profile-location"]

def currentRoleSelectors : List String :=
  [".entity-result__summary", ".profile-info", ".current-position", "p", "div"]

def headlineSelectors : List String :=
  [".entity-result__primary-subtitle",
   ".search-result__info p.subline-level-1",
   ".artdeco-entity-lockup__subtitle",
   ".profile-card__occupation",
   ".profile-position",
   ".job-info",
   ".occupation",
   "h2 + div",
   "h3 + div",
   ".mb1 + div",
   "p.job-title",
   ".headline"]

def inProfileLinkSel : String := "a[href*=\"/in/\"]"

def divPSpanSel : String := "div, p, span"

def pDivSel : String := "p, div"

/-! ### Primary-variant field extractors (content.js lines 324-506) -/

/-- The characters removed by `name.replace(/View |'s profile/g, "")`. -/
def viewPatChars : List Char := "View ".data

def sProfileChars : List Char := aposChar :: ("s profile").data

def sProfileStr : String := String.mk sProfileChars

/-- Worker for the global replacement of `View ` and `'s profile` by the
empty string (content.js line 336); fueled like `lsplitAux`. -/
def stripViewAux : Nat → List Char → List Char
  | _, [] => []
  | 0, l => l
  | fuel + 1, c :: rest =>
    if lprefix viewPatChars (c :: rest) then stripViewAux fuel (List.drop 4 rest)
    else if lprefix sProfileChars (c :: rest) then stripViewAux fuel (List.drop 9 rest)
    else c :: stripViewAux fuel rest

/-- `name.replace(/View |'s profile/g, "")`. -/
def stripViewProfile (s : String) : String :=
  String.mk (stripViewAux s.data.length s.data)

/-- The name-selector cascade of `extractName`; each iteration is wrapped in
its own try/catch, so a query error just moves on to the next selector. -/
def extractNameLoop (card : Card) : List String → Option String
  | [] => none
  | sel :: rest =>
    match card.q sel with
    | .error _ => extractNameLoop card rest
    | .ok none => extractNameLoop card rest
    | .ok (some el) =>
      let name := jsOr el.innerText el.textContent
      if name ≠ "" then
        let name1 := jsTrim name
        some (if jsIncludes name1 "View " ∧ jsIncludes name1 sProfileStr then
                jsTrim (stripViewProfile name1)
              else name1)
      else extractNameLoop card rest

/-- Span scan inside the deep name search (content.js lines 362-368). -/
def deepSpanScan : List El → Option String
  | [] => none
  | span :: rest =>
    let spanText := jsOr span.innerText span.textContent
    if spanText ≠ "" ∧ jsTrim spanText ≠ "" ∧ 3 < spanText.length then some (jsTrim spanText)
    else deepSpanScan rest

/-- Deep name search over every profile link (content.js lines 350-369). -/
def deepLinkScan : List El → Option String
  | [] => none
  | link :: rest =>
    let linkText := jsOr link.innerText link.textContent
    let fromText : Option String :=
      if linkText ≠ "" then
        let lt := jsTrim linkText
        if lt ≠ "" ∧ ¬ jsIncludes lt "View profile" ∧ 3 < lt.length then some lt else none
      else none
    match fromText with
    | some n => some n
    | none =>
      match deepSpanScan link.spans with
      | some n => some n
      | none => deepLinkScan rest

/-- `extractName` (content.js lines 324-375).  Total: every query runs under
a try/catch, so errors are absorbed and the cascade continues. -/
def extractName (card : Card) : String :=
  match extractNameLoop card nameSelectors with
  | some n => n
  | none =>
    match card.qa inProfileLinkSel with
    | .error _ => ""
    | .ok links => (deepLinkScan links).getD ""

/-- First profile link with a non-empty `href` (content.js lines 379-384). -/
def findFirstHref : List El → String
  | [] => ""
  | link :: rest => if link.href ≠ "" then link.href else findFirstHref rest

/-- `extractProfileUrl` (content.js lines 377-386).  This cascade has no
try/catch: a query error propagates to the per-card handler. -/
def extractProfileUrlE (card : Card) : Except Unit String :=
  match card.qa inProfileLinkSel with
  | .error e => .error e
  | .ok links => .ok (findFirstHref links)

/-! ### Current-role extraction (content.js lines 1203-1357) -/

/-- Scan one selector's matches for an element whose text contains
`Current:` (content.js lines 1227-1235). -/
def findCurrentInEls : List El → Option El
  | [] => none
  | el :: rest =>
    if jsIncludes (jsOr el.textContent el.innerText) "Current:" then some el
    else findCurrentInEls rest

/-- Try the selectors in order until one yields a `Current:` element; a
query error propagates to the enclosing try/catch of
`extractCurrentRoleInfo`. -/
def findCurrentEl (card : Card) : List String → Except Unit (Option El)
  | [] => pure none
  | sel :: rest => do
    let els ← card.qa sel
    match findCurrentInEls els with
    | some el => pure (some el)
    | none => findCurrentEl card rest

/-- The regex cascade applied to the chosen `Current:` text
(content.js lines 1244-1350), in source order: (a) the hard-coded literal
pattern, (b) the `Current: Senior Marketing Manager` + `at Intuit`
substring pair, (c) the basic pattern, (d) the complex (colon-subtitle)
pattern, (e) the Marketing-Manager keyword pattern, (f) the last-resort
`Current:` fallback, (g) the final Marketing-Manager fallback. -/
def analyzeCurrentText (t : String) : String × String :=
  if rxTest true exactPattern t then
    ("Senior Marketing Manager: Product Marketing & Sales Enablement", "Intuit")
  else if jsIncludes t "Current: Senior Marketing Manager" ∧ jsIncludes t "at Intuit" then
    match rxSearch true fullTitlePattern t.data with
    | some caps => (jsTrim ((rxGroup caps 1).getD ""), "Intuit")
    | none => ("Senior Marketing Manager", "Intuit")
  else
    match rxSearch true basicPattern t.data with
    | some caps => (jsTrim ((rxGroup caps 1).getD ""), jsTrim ((rxGroup caps 2).getD ""))
    | none =>
      match rxSearch true complexPattern t.data with
      | some caps =>
        let g1 := jsTrim ((rxGroup caps 1).getD "")
        let title :=
          match rxGroup caps 2 with
          | some g2 => if g2 ≠ "" then g1 ++ ": " ++ jsTrim g2 else g1
          | none => g1
        (title, jsTrim ((rxGroup caps 3).getD ""))
      | none =>
        let marketingStep : Option (String × String) :=
          if jsIncludes t "Marketing Manager" then
            match rxSearch true marketingPattern t.data with
            | some caps =>
              some (jsTrim ((rxGroup caps 1).getD ""), jsTrim ((rxGroup caps 2).getD ""))
            | none => none
          else none
        match marketingStep with
        | some r => r
        | none =>
          match rxSearch true fallbackPatternRx t.data with
          | some caps =>
            let fullInfo := jsTrim ((rxGroup caps 1).getD "")
            if jsIncludes fullInfo " at " then
              let parts := jsSplit fullInfo " at "
              (jsTrim (jsPart parts 0), jsTrim (jsPart parts 1))
            else (fullInfo, "")
          | none =>
            if jsIncludes t "Marketing Manager" then
              let company :=
                match jsIndexOf t " at " with
                | some atIndex =>
                  let companyText := jsSubstring t (atIndex + 4) (atIndex + 34)
                  match rxMatchAt false companyHeadPattern companyText.data with
                  | some caps => jsTrim ((rxGroup caps 1).getD "")
                  | none => ""
                | none => ""
              ("Marketing Manager", company)
            else ("", "")

/-- `extractCurrentRoleInfo` (content.js lines 1203-1357).  The whole body
runs in a try/catch whose handler returns the (still empty) result, so a
query error yields `("", "")`. -/
def extractCurrentRoleInfo (card : Card) : String × String :=
  let cardText := jsOr card.textContent card.innerText
  if jsIncludes cardText "Current:" then
    match findCurrentEl card currentRoleSelectors with
    | .error _ => ("", "")
    | .ok elOpt =>
      let textToAnalyze :=
        match elOpt with
        | some el => jsOr el.textContent el.innerText
        | none => cardText
      analyzeCurrentText textToAnalyze
  else ("", "")

/-! ### Headline extraction (content.js lines 1364-1469) -/

/-- Result of the `Current:`-prefix scan over every `div, p, span`:
either a final (title, company) pair, or a fallthrough title that the
selector loop may overwrite. -/
inductive CurrentScanOutcome where
  | ret (tc : String × String)
  | fall (tCur : String)
deriving DecidableEq

/-- content.js lines 1388-1411: the first element whose trimmed text starts
with `Current:` is parsed with `currentHeadlinePattern`; on failure the text
after the first colon becomes a provisional title and the scan breaks. -/
def currentScan : List El → CurrentScanOutcome
  | [] => .fall ""
  | el :: rest =>
    let text := jsOr el.innerText el.textContent
    if text ≠ "" ∧ jsStartsWith (jsTrim text) "Current:" then
      let currentText := jsTrim text
      match rxSearch true currentHeadlinePattern currentText.data with
      | some caps =>
        .ret (jsTrim ((rxGroup caps 1).getD ""), jsTrim ((rxGroup caps 2).getD ""))
      | none =>
        .fall (jsTrim (jsSubstringFrom currentText (((jsIndexOf currentText ":").getD 0) + 1)))
    else currentScan rest

/-- The headline-selector loop (content.js lines 1414-1463), carrying the
provisional title `tCur` from the `Current:` scan.  Note: the source tests
only the delimiters `" at "`, `" @ "` and `": "` (the `": "` branch is
duplicated verbatim in the source); a text with none of them is skipped. -/
def headlineSplitLoop (card : Card) (tCur : String) : List String → String × String
  | [] => (tCur, "")
  | sel :: rest =>
    match card.q sel with
    | .error _ => headlineSplitLoop card tCur rest
    | .ok none => headlineSplitLoop card tCur rest
    | .ok (some el) =>
      let headlineText := jsOr el.innerText el.textContent
      if headlineText ≠ "" ∧ jsTrim headlineText ≠ "" then
        let text := jsTrim headlineText
        if jsIncludes text " at " then
          let parts := jsSplit text " at "
          (jsTrim (jsPart parts 0), jsTrim (jsPart parts 1))
        else if jsIncludes text " @ " then
          let parts := jsSplit text " @ "
          (jsTrim (jsPart parts 0), jsTrim (jsPart parts 1))
        else if jsIncludes text ": " then
          let parts := jsSplit text ": "
          (jsTrim (jsPart parts 0), jsTrim (jsPart parts 1))
        else if jsIncludes text ": " then
          let parts := jsSplit text ": "
          (jsTrim (jsPart parts 0), jsTrim (jsPart parts 1))
        else headlineSplitLoop card tCur rest
      else headlineSplitLoop card tCur rest

/-- `extractMainHeadlineInfo` (content.js lines 1364-1469). -/
def extractMainHeadlineInfo (card : Card) : String × String :=
  match card.qa divPSpanSel with
  | .error _ => ("", "")
  | .ok allElements =>
    match currentScan allElements with
    | .ret tc => tc
    | .fall tCur => headlineSplitLoop card tCur headlineSelectors

/-! ### Title / company / location for the Primary variant
(content.js lines 388-506) -/

/-- The direct title-selector loop of `extractTitle` (lines 402-421). -/
def titleSelLoop (card : Card) : List String → String
  | [] => ""
  | sel :: rest =>
    match card.q sel with
    | .error _ => titleSelLoop card rest
    | .ok none => titleSelLoop card rest
    | .ok (some el) =>
      let title := jsOr el.innerText el.textContent
      if title ≠ "" then
        let t := jsTrim title
        if jsIncludes t " at " then jsTrim (jsPart (jsSplit t " at ") 0) else t
      else titleSelLoop card rest

/-- `extractTitle` (content.js lines 388-424). -/
def extractTitle (card : Card) : String :=
  let cur := extractCurrentRoleInfo card
  if cur.1 ≠ "" then cur.1
  else
    let hl := extractMainHeadlineInfo card
    if hl.1 ≠ "" then hl.1
    else titleSelLoop card titleSelectors

/-- The direct company-selector loop of `extractCompany` (lines 446-458). -/
def companySelLoop (card : Card) : List String → String
  | [] => ""
  | sel :: rest =>
    match card.q sel with
    | .error _ => companySelLoop card rest
    | .ok none => companySelLoop card rest
    | .ok (some el) =>
      let company := jsOr el.innerText el.textContent
      if company ≠ "" then jsTrim company
      else companySelLoop card rest

/-- `extractCompany` (content.js lines 426-461). -/
def extractCompany (card : Card) : String :=
  let cur := extractCurrentRoleInfo card
  if cur.2 ≠ "" then cur.2
  else
    let hl := extractMainHeadlineInfo card
    if hl.2 ≠ "" then hl.2
    else
      let title := extractTitle card
      if title ≠ "" ∧ jsIncludes title " at " then jsTrim (jsPart (jsSplit title " at ") 1)
      else companySelLoop card companySelectors

/-- The location-selector loop of `extractLocation` (lines 464-483). -/
def locationSelLoop (card : Card) : List String → Option String
  | [] => none
  | sel :: rest =>
    match card.q sel with
    | .error _ => locationSelLoop card rest
    | .ok none => locationSelLoop card rest
    | .ok (some el) =>
      let location := jsOr el.innerText el.textContent
      if location ≠ "" then
        let l := jsTrim location
        some (if jsStartsWith l "Location:" then jsTrim (jsSubstringFrom l 9) else l)
      else locationSelLoop card rest

/-- The paragraph fallback of `extractLocation` (lines 486-503). -/
def locationParaScan : List El → Option String
  | [] => none
  | para :: rest =>
    let text := jsOr para.innerText para.textContent
    if (rxMatchAt false locationShapePattern text.data).isSome ∧ text.length < 50 then
      some (jsTrim text)
    else if (rxMatchAt false countriesPattern text.data).isSome then some (jsTrim text)
    else locationParaScan rest

/-- `extractLocation` (content.js lines 463-506). -/
def extractLocation (card : Card) : String :=
  match locationSelLoop card locationSelectors with
  | some l => l
  | none =>
    match card.qa pDivSel with
    | .error _ => ""
    | .ok paras => (locationParaScan paras).getD ""

/-! ### Record assembly, Primary variant (content.js lines 509-538) -/

structure Lead where
  fullName : String
  title : String
  location : String
  profileUrl : String
  companyName : String
deriving DecidableEq

/-- What happens to one candidate in the per-card loop. -/
inductive CardOutcome (α : Type) where
  | pushed (r : α)
  | skippedEmpty
  | errorSkipped
deriving DecidableEq

/-- The record built inside the per-card `try` block, in source order; the
only field cascade that can throw is the profile-URL one. -/
def buildLead (card : Card) : Except Unit Lead :=
  let fullName := extractName card
  let title := extractTitle card
  let location := extractLocation card
  match extractProfileUrlE card with
  | .error e => .error e
  | .ok profileUrl =>
    let companyName := extractCompany card
    .ok { fullName := fullName, title := title, location := location,
          profileUrl := profileUrl, companyName := companyName }

/-- One iteration of the per-card loop: the catch skips the candidate, and
a built record is pushed iff `fullName || profileUrl` is truthy. -/
def processLeadCard (card : Card) : CardOutcome Lead :=
  match buildLead card with
  | .error _ => .errorSkipped
  | .ok l => if l.fullName ≠ "" ∨ l.profileUrl ≠ "" then .pushed l else .skippedEmpty

/-- The whole assembly loop over the filtered candidates. -/
def assemblePrimary (cards : List Card) : List Lead :=
  cards.filterMap (fun c =>
    match processLeadCard c with
    | .pushed l => some l
    | _ => none)

/-! ### Record assembly, Secondary (Sales Navigator) variant
(content.js lines 742-977).  None of the field loops has its own
try/catch: any query error propagates to the per-card handler. -/

def navNameSelectors : List String :=
  [".result-lockup__name a",
   ".artdeco-entity-lockup__title a",
   ".entity-result__title-text a",
   "a[data-control-name=\"search_srp_result\"]",
   ".artdeco-entity-lockup__title span",
   ".result-lockup__name span",
   ".artdeco-entity-lockup__title",
   "h3.result-lockup__name",
   "h3.artdeco-entity-lockup__title",
   ".customer-name",
   "a[href*=\"/sales/lead/\"]",
   "a[href*=\"/sales/people/\"]",
   "a.artdeco-entity-lockup__title-link",
   "div.artdeco-entity-lockup__title a"]

def navTitleSelectors : List String :=
  [".result-lockup__highlight-keyword",
   ".artdeco-entity-lockup__subtitle",
   ".entity-result__primary-subtitle",
   ".search-result__info-container .t-14",
   ".result-lockup__position-company",
   ".result-lockup__title",
   ".artdeco-entity-lockup__subtitle:first-of-type",
   ".customer-title",
   "div[data-test-customer-occupation]",
   "div.artdeco-entity-lockup__subtitle:first-child",
   ".result-lockup__position-company-text"]

def navCompanySelectors : List String :=
  [".result-lockup__position-company a",
   ".artdeco-entity-lockup__subtitle:nth-child(2)",
   ".entity-result__secondary-subtitle",
   "[data-control-name=\"view_company\"]",
   ".result-lockup__company-name",
   ".result-lockup__position-company-text a",
   ".artdeco-entity-lockup__subtitle:nth-of-type(2)",
   ".customer-company",
   "div[data-test-customer-company]",
   "a[data-control-name=\"view_company_via_lockup\"]",
   "span.result-lockup__position-company-text"]

def navLocationSelectors : List String :=
  [".result-lockup__misc-item",
   ".artdeco-entity-lockup__caption",
   ".entity-result__secondary-subtitle + .entity-result__tertiary-subtitle",
   ".search-result__location",
   ".result-lockup__misc li.result-lockup__misc-item",
   ".result-lockup__misc-item:first-child",
   ".artdeco-entity-lockup__metadata",
   ".result-lockup__misc-list li:first-child",
   "span.customer-location",
   "div[data-test-customer-location]",
   "div.artdeco-entity-lockup__caption"]

def degreeSelectors : List String :=
  [".result-lockup__badge-icon",
   ".artdeco-entity-lockup__badge",
   ".entity-result__badge",
   ".search-result__connection-indicator",
   ".distance-badge",
   "span[data-test-distance-badge]",
   ".message-link__badge"]

def sharedSelectors : List String :=
  [".search-result__social-proof",
   ".result-lockup__misc-list",
   ".artdeco-entity-lockup__metadata",
   ".entity-result__simple-insight-text",
   "span[data-control-name=\"connection_degree_pill\"]",
   ".shared-connections",
   ".member-insights"]

def navIndustrySel : String :=
  ".t-14, .t-black--light, .artdeco-entity-lockup__caption, .result-lockup__misc-item"

def ariaSel : String := "[aria-label]"

structure NavRecord where
  name : String
  profileUrl : String
  title : String
  company : String
  location : String
  industry : String
  connectionDegree : String
  sharedConnections : String
deriving DecidableEq

/-- The name/profileUrl loop (content.js lines 862-879): the first selector
that matches an element wins, even when its text is empty. -/
def navNameLoop (card : Card) : List String → Except Unit (String × String)
  | [] => pure ("", "")
  | sel :: rest => do
    let elOpt ← card.q sel
    match elOpt with
    | none => navNameLoop card rest
    | some el =>
      let name := jsTrim el.textContent
      let profileUrl :=
        if el.href ≠ "" then el.href
        else if el.closestAHref ≠ "" then el.closestAHref
        else ""
      pure (name, profileUrl)

/-- The title loop (content.js lines 882-889). -/
def navTitleLoop (card : Card) : List String → Except Unit String
  | [] => pure ""
  | sel :: rest => do
    let elOpt ← card.q sel
    match elOpt with
    | none => navTitleLoop card rest
    | some el => pure (jsTrim el.textContent)

/-- The company loop (content.js lines 914-921). -/
def navCompanyLoop (card : Card) : List String → Except Unit String
  | [] => pure ""
  | sel :: rest => do
    let elOpt ← card.q sel
    match elOpt with
    | none => navCompanyLoop card rest
    | some el => pure (jsTrim el.textContent)

/-- Title/company resolution (content.js lines 892-922): the title is split
on `" at "`, `" @ "` or `" chez "` when present, otherwise the company
selectors are consulted. -/
def navTitleCompany (card : Card) : Except Unit (String × String) := do
  let title ← navTitleLoop card navTitleSelectors
  if jsIncludes title " at " then
    let parts := jsSplit title " at "
    pure (jsTrim (jsPart parts 0), jsTrim (jsPart parts 1))
  else if jsIncludes title " @ " then
    let parts := jsSplit title " @ "
    pure (jsTrim (jsPart parts 0), jsTrim (jsPart parts 1))
  else if jsIncludes title " chez " then
    let parts := jsSplit title " chez "
    pure (jsTrim (jsPart parts 0), jsTrim (jsPart parts 1))
  else do
    let company ← navCompanyLoop card navCompanySelectors
    pure (title, company)

/-- The location loop (content.js lines 925-938). -/
def navLocationLoop (card : Card) : List String → Except Unit String
  | [] => pure ""
  | sel :: rest => do
    let elOpt ← card.q sel
    match elOpt with
    | none => navLocationLoop card rest
    | some el =>
      let location := jsTrim el.textContent
      pure (if jsStartsWith location "Location:" then jsTrim (jsSubstringFrom location 9)
            else location)

/-- The industry scan (content.js lines 942-951). -/
def navIndustryScan : List El → String
  | [] => ""
  | el :: rest =>
    let text := jsTrim el.textContent
    if jsIncludes text "industry" ∨ (rxMatchAt false industryPattern text.data).isSome then text
    else navIndustryScan rest

/-- Classify one badge element (content.js lines 999-1010). -/
def degreeFromEl (el : El) : Option String :=
  let degreeClass := el.className
  let degreeText := jsTrim el.textContent
  if jsIncludes degreeClass "degree-1" ∨ jsIncludes degreeClass "first-degree" then some "1st"
  else if jsIncludes degreeClass "degree-2" ∨ jsIncludes degreeClass "second-degree" then some "2nd"
  else if jsIncludes degreeClass "degree-3" ∨ jsIncludes degreeClass "third-degree" then some "3rd"
  else if jsIncludes degreeText "1st" then some "1st"
  else if jsIncludes degreeText "2nd" then some "2nd"
  else if jsIncludes degreeText "3rd" then some "3rd"
  else none

/-- The badge-selector loop of `extractConnectionDegree` (lines 996-1012):
an element that matches no rule lets the loop continue. -/
def degreeSelLoop (card : Card) : List String → Except Unit (Option String)
  | [] => pure none
  | sel :: rest => do
    let elOpt ← card.q sel
    match elOpt with
    | none => degreeSelLoop card rest
    | some el =>
      match degreeFromEl el with
      | some d => pure (some d)
      | none => degreeSelLoop card rest

/-- The aria-label scan of `extractConnectionDegree` (lines 1015-1023). -/
def ariaDegreeScan : List El → String
  | [] => ""
  | el :: rest =>
    let label := el.ariaLabel
    if label ≠ "" then
      if jsIncludes label "1st" ∨ jsIncludes label "1 st" then "1st"
      else if jsIncludes label "2nd" ∨ jsIncludes label "2 nd" then "2nd"
      else if jsIncludes label "3rd" ∨ jsIncludes label "3 rd" then "3rd"
      else ariaDegreeScan rest
    else ariaDegreeScan rest

/-- `extractConnectionDegree` (content.js lines 984-1026). -/
def extractConnectionDegree (card : Card) : Except Unit String := do
  let fromBadge ← degreeSelLoop card degreeSelectors
  match fromBadge with
  | some d => pure d
  | none => do
    let els ← card.qa ariaSel
    pure (ariaDegreeScan els)

/-- The shared-connections selector loop (content.js lines 1045-1050). -/
def sharedSelLoop (card : Card) : List String → Except Unit (Option String)
  | [] => pure none
  | sel :: rest => do
    let elOpt ← card.q sel
    match elOpt with
    | none => sharedSelLoop card rest
    | some el =>
      if jsIncludes el.textContent "shared" then pure (some (jsTrim el.textContent))
      else sharedSelLoop card rest

/-- `extractSharedConnections` (content.js lines 1033-1060). -/
def extractSharedConnections (card : Card) : Except Unit String := do
  let fromSel ← sharedSelLoop card sharedSelectors
  match fromSel with
  | some s => pure s
  | none =>
    match rxSearch false sharedPattern card.textContent.data with
    | some caps => pure (((rxGroup caps 1).getD "") ++ " shared connections")
    | none => pure ""

/-- The record built inside the Navigator per-card `try` block
(content.js lines 857-969), in source order. -/
def buildNavRecord (card : Card) : Except Unit NavRecord := do
  let nu ← navNameLoop card navNameSelectors
  let tc ← navTitleCompany card
  let location ← navLocationLoop card navLocationSelectors
  let industryEls ← card.qa navIndustrySel
  let industry := navIndustryScan industryEls
  let connectionDegree ← extractConnectionDegree card
  let sharedConnections ← extractSharedConnections card
  pure { name := nu.1, profileUrl := nu.2, title := tc.1, company := tc.2,
         location := location, industry := industry,
         connectionDegree := connectionDegree, sharedConnections := sharedConnections }

/-- One Navigator candidate: the catch skips it; a built record is pushed
iff `name` alone is truthy (content.js line 958). -/
def processNavCard (card : Card) : CardOutcome NavRecord :=
  match buildNavRecord card with
  | .error _ => .errorSkipped
  | .ok r => if r.name ≠ "" then .pushed r else .skippedEmpty

/-- The Navigator assembly loop over the filtered candidates. -/
def assembleNavigator (cards : List Card) : List NavRecord :=
  cards.filterMap (fun c =>
    match processNavCard c with
    | .pushed r => some r
    | _ => none)

/-! ### The candidate classifier (content.js lines 1476-1543) -/

def salesLeadLinkSel : String := "a[href*=\"/sales/lead/\"]"

def salesPeopleLinkSel : String := "a[href*=\"/sales/people/\"]"

def titleMarkerSel : String :=
  "[class*=\"subtitle\"], [class*=\"headline\"], [class*=\"title\"], [class*=\"result-lockup__position\"], [class*=\"customer-title\"]"

def imageSel : String := "img, .artdeco-entity-lockup__image, .ghost-person"

def navMarkerSel1 : String := ".result-lockup__name, .customer-name, .artdeco-entity-lockup__title"

def navMarkerSel2 : String := "[data-test-search-result], [data-test-customer-name]"

/-- The seven feature booleans computed per candidate. -/
structure FeatureVec where
  hasProfileLink : Bool
  hasText : Bool
  hasTitleElement : Bool
  hasCardStructure : Bool
  hasReasonableSize : Bool
  hasProfileImage : Bool
  hasSalesNavElements : Bool
deriving DecidableEq

/-- content.js lines 1521-1529: the additive score over the feature booleans
(`score += 3/1/2/2/1/1/2`). -/
def cardScore (f : FeatureVec) : Nat :=
  (if f.hasProfileLink then 3 else 0) +
  (if f.hasText then 1 else 0) +
  (if f.hasTitleElement then 2 else 0) +
  (if f.hasCardStructure then 2 else 0) +
  (if f.hasReasonableSize then 1 else 0) +
  (if f.hasProfileImage then 1 else 0) +
  (if f.hasSalesNavElements then 2 else 0)

/-- content.js lines 1485-1519: the feature booleans, with JavaScript
short-circuit evaluation of `||` and `&&` preserved (a query on a branch
that is not reached cannot throw). -/
def profileLinkCheck (isSalesNavigator : Bool) (card : Card) : Except Unit Bool :=
  match card.q inProfileLinkSel with
  | .error e => .error e
  | .ok l1 =>
    if l1.isSome then .ok true
    else if isSalesNavigator then
      match card.q salesLeadLinkSel with
      | .error e => .error e
      | .ok l2 =>
        if l2.isSome then .ok true
        else
          match card.q salesPeopleLinkSel with
          | .error e => .error e
          | .ok l3 => .ok l3.isSome
    else .ok false

def salesNavMarkerCheck (isSalesNavigator : Bool) (card : Card) : Except Unit Bool :=
  if !isSalesNavigator then .ok true
  else
    match card.q navMarkerSel1 with
    | .error e => .error e
    | .ok m1 =>
      if m1.isSome then .ok true
      else
        match card.q navMarkerSel2 with
        | .error e => .error e
        | .ok m2 => .ok m2.isSome

def computeFeatures (isSalesNavigator : Bool) (card : Card) : Except Unit FeatureVec :=
  match profileLinkCheck isSalesNavigator card with
  | .error e => .error e
  | .ok hasProfileLink =>
    let hasText := (card.textContent != "") && decide (20 < (jsTrim card.textContent).length)
    match card.q titleMarkerSel with
    | .error e => .error e
    | .ok t =>
      let hasTitleElement := t.isSome
      let hasCardStructure :=
        (card.tagName == "LI") ||
        card.classList.contains "entity-result" ||
        card.classList.contains "artdeco-entity-lockup" ||
        card.classList.contains "search-result" ||
        card.classList.contains "reusable-search__result-container" ||
        card.classList.contains "artdeco-card" ||
        (isSalesNavigator && card.classList.contains "result-lockup") ||
        (isSalesNavigator && card.classList.contains "search-results__result-item")
      let hasReasonableSize := decide (40 < card.clientHeight) && decide (50 < card.clientWidth)
      match card.q imageSel with
      | .error e => .error e
      | .ok img =>
        let hasProfileImage := img.isSome
        match salesNavMarkerCheck isSalesNavigator card with
        | .error e => .error e
        | .ok hasSalesNavElements =>
          .ok { hasProfileLink := hasProfileLink, hasText := hasText,
                hasTitleElement := hasTitleElement, hasCardStructure := hasCardStructure,
                hasReasonableSize := hasReasonableSize, hasProfileImage := hasProfileImage,
                hasSalesNavElements := hasSalesNavElements }

/-- content.js line 1535: `isSalesNavigator ? 4 : 3`. -/
def scoreThreshold (isSalesNavigator : Bool) : Nat := if isSalesNavigator then 4 else 3

/-- The filter callback of `filterProfileCards` with its try/catch: a
candidate whose feature evaluation throws is rejected (`return false`). -/
def keepCard (isSalesNavigator : Bool) (card : Card) : Bool :=
  match computeFeatures isSalesNavigator card with
  | .error _ => false
  | .ok f => decide (scoreThreshold isSalesNavigator ≤ cardScore f)

/-- `filterProfileCards` (content.js lines 1476-1543). -/
def filterProfileCards (isSalesNavigator : Bool) (cards : List Card) : List Card :=
  cards.filter (keepCard isSalesNavigator)

/-- Names for the seven score features, for stating monotonicity. -/
inductive ScoreFeature where
  | link
  | text
  | titleEl
  | cardStruct
  | size
  | image
  | salesNav
deriving DecidableEq

def getFeature (f : FeatureVec) : ScoreFeature → Bool
  | .link => f.hasProfileLink
  | .text => f.hasText
  | .titleEl => f.hasTitleElement
  | .cardStruct => f.hasCardStructure
  | .size => f.hasReasonableSize
  | .image => f.hasProfileImage
  | .salesNav => f.hasSalesNavElements

def setFeature (f : FeatureVec) : ScoreFeature → Bool → FeatureVec
  | .link, b => { f with hasProfileLink := b }
  | .text, b => { f with hasText := b }
  | .titleEl, b => { f with hasTitleElement := b }
  | .cardStruct, b => { f with hasCardStructure := b }
  | .size, b => { f with hasReasonableSize := b }
  | .image, b => { f with hasProfileImage := b }
  | .salesNav, b => { f with hasSalesNavElements := b }

/-! ### The Lazy-Load Pump (content.js lines 551-736) -/

/-- What one poll tick reads from the document. -/
structure PumpEnv where
  scrollTop : Nat
  scrollHeight : Nat
  clientHeight : Nat
  isLoading : Bool
  resultsCount : Nat

/-- The mutable state of the scroll loop. -/
structure PumpState where
  lastScrollTop : Nat
  lastScrollHeight : Nat
  lastResultsCount : Nat
  noChangeCount : Nat
  noHeightChangeCount : Nat
  scrollAttempts : Nat
deriving DecidableEq

def maxScrollAttempts : Nat := 150

def maxNoChangeCount : Nat := 5

def maxNoHeightChangeCount : Nat := 10

/-- The state before the first tick (content.js lines 555-563, 623). -/
def pumpInit (initialScrollHeight initialResultsCount : Nat) : PumpState :=
  { lastScrollTop := 0, lastScrollHeight := initialScrollHeight,
    lastResultsCount := initialResultsCount, noChangeCount := 0,
    noHeightChangeCount := 0, scrollAttempts := 0 }

/-- The counter updates of one tick (content.js lines 626-678), in source
order: the results-count reset, then the scroll-position counter, then the
height counter (which also resets the position counter). -/
def pumpStep (e : PumpEnv) (s : PumpState) : PumpState :=
  let resultsChanged := s.lastResultsCount < e.resultsCount
  let lastResultsCount := if resultsChanged then e.resultsCount else s.lastResultsCount
  let nc0 := if resultsChanged then 0 else s.noChangeCount
  let nh0 := if resultsChanged then 0 else s.noHeightChangeCount
  let hasScrollChanges := e.scrollTop ≠ s.lastScrollTop
  let nc1 := if hasScrollChanges then 0 else nc0 + 1
  let hasHeightChanges := e.scrollHeight ≠ s.lastScrollHeight
  let nh1 := if hasHeightChanges then 0 else nh0 + 1
  let nc2 := if hasHeightChanges then 0 else nc1
  { lastScrollTop := e.scrollTop, lastScrollHeight := e.scrollHeight,
    lastResultsCount := lastResultsCount, noChangeCount := nc2,
    noHeightChangeCount := nh1, scrollAttempts := s.scrollAttempts + 1 }

/-- `Math.round((scrollTop / (scrollHeight - clientHeight)) * 100) > 70`,
with rational rounding in place of JavaScript floats; when the denominator
is zero the quotient is `Infinity` (condition true) for a positive
numerator and `NaN` (condition false) for `0/0`, and a negative denominator
makes the quotient negative (condition false). -/
def scrollPercentGT70 (e : PumpEnv) : Bool :=
  if e.clientHeight < e.scrollHeight then
    decide (70 < (200 * e.scrollTop + (e.scrollHeight - e.clientHeight)) /
      (2 * (e.scrollHeight - e.clientHeight)))
  else if e.scrollHeight == e.clientHeight then decide (0 < e.scrollTop)
  else false

/-- The stop condition checked after the counter updates
(content.js lines 696-701), a four-way disjunction ending in the hard cap. -/
def pumpStops (e : PumpEnv) (s2 : PumpState) : Bool :=
  let isAtBottom := decide (e.scrollHeight - 50 ≤ e.scrollTop + e.clientHeight)
  (isAtBottom && !e.isLoading && decide (2 < s2.noHeightChangeCount)) ||
  (decide (maxNoChangeCount ≤ s2.noChangeCount) && !e.isLoading) ||
  (decide (maxNoHeightChangeCount ≤ s2.noHeightChangeCount) && scrollPercentGT70 e) ||
  decide (maxScrollAttempts ≤ s2.scrollAttempts)

/-- Run the pump against a document behaviour `env` (tick number ↦ what the
document shows on that tick); returns the number of ticks until the loop
stops, or `none` if it has not stopped within `fuel` ticks. -/
def settleTick (env : Nat → PumpEnv) (s : PumpState) : Nat → Option Nat
  | 0 => none
  | fuel + 1 =>
    let s2 := pumpStep (env 0) s
    if pumpStops (env 0) s2 then some 1
    else (settleTick (fun k => env (k + 1)) s2 fuel).map (· + 1)

/-! ### Candidate dedup (content.js lines 227 and 780: `[...new Set(l)]`)

DOM-node identities are modelled as natural numbers. -/

/-- `[...new Set(l)]`: keep the first occurrence of each element, in
insertion order. -/
def dedupSet : List Nat → List Nat
  | [] => []
  | x :: xs => x :: dedupSet (xs.filter (fun y => y != x))
termination_by l => l.length
decreasing_by
  simp_wf
  have _h := List.length_filter_le (fun y => y != x) xs
  omega

/-- The union step of the Candidate Locator: concatenate every strategy's
matches (content.js lines 215-222 / 768-775), then deduplicate. -/
def locatorMerge (strategies : List (List Nat)) : List Nat :=
  dedupSet strategies.flatten

/-! ### CSV escaping (popup.js lines 529-543) -/

def quoteC : Char := Char.ofNat 34

/-- `str.replace(/"/g, "\"\"")` — double every double quote. -/
def replaceQuotes : List Char → List Char
  | [] => []
  | c :: rest =>
    if c == quoteC then quoteC :: quoteC :: replaceQuotes rest
    else c :: replaceQuotes rest

/-- `str.includes(",") || str.includes("\"") || str.includes("\n")`. -/
def needsCsvQuoting (s : String) : Bool :=
  jsIncludes s "," || jsIncludes s "\"" || jsIncludes s "\n"

/-- `escapeCsvField` (popup.js lines 529-543) on an already-string field. -/
def escapeCsvField (s : String) : String :=
  if needsCsvQuoting s then String.mk (quoteC :: (replaceQuotes s.data ++ [quoteC]))
  else s

/-! ### Specification-side definitions

These two definitions follow the specification's words (not the source) and
are compared against the source-derived definitions above. -/

/-- The score formula exactly as the specification states it: the
variant-specific marker weight (+2) is awarded only on the Secondary
(Sales Navigator) variant. -/
def specClaimedScore (isSalesNavigator : Bool) (f : FeatureVec) : Nat :=
  (if f.hasProfileLink then 3 else 0) +
  (if f.hasText then 1 else 0) +
  (if f.hasTitleElement then 2 else 0) +
  (if f.hasCardStructure then 2 else 0) +
  (if f.hasReasonableSize then 1 else 0) +
  (if f.hasProfileImage then 1 else 0) +
  (if isSalesNavigator ∧ f.hasSalesNavElements then 2 else 0)

/-- The delimiters the headline split actually tests, in source order. -/
def headlineDelims : List String := [" at ", " @ ", ": "]

/-- Specification-style description of one headline split: the first
delimiter contained in the text wins, both sides are trimmed, and the
company is the segment after the first delimiter occurrence. -/
def splitFirstDelim (t : String) : Option (String × String) :=
  match headlineDelims.find? (fun d => jsIncludes t d) with
  | some d =>
    let parts := jsSplit t d
    some (jsTrim (jsPart parts 0), jsTrim (jsPart parts 1))
  | none => none

/-- The headline texts available to the selector loop, in selector order
(a query error or miss contributes nothing). -/
def headlineTextsOfSels (card : Card) (sels : List String) : List String :=
  sels.filterMap (fun sel =>
    match card.q sel with
    | .ok (some el) => some (jsOr el.innerText el.textContent)
    | _ => none)

def headlineTextsOf (card : Card) : List String :=
  headlineTextsOfSels card headlineSelectors

/-- Specification-style scan: the first non-empty (after trimming) headline
text that contains a delimiter is split; texts without a delimiter are
skipped. -/
def headlineScanSpec : List String → Option (String × String)
  | [] => none
  | ht :: rest =>
    if jsTrim ht ≠ "" then
      match splitFirstDelim (jsTrim ht) with
      | some tc => some tc
      | none => headlineScanSpec rest
    else headlineScanSpec rest

/-! ### Concrete candidates used as witnesses and counterexamples -/

/-- The headline string of the hard-coded example in content.js. -/
def fioText : String :=
  "Current: Senior Marketing Manager: Product Marketing & Sales Enablement at Intuit"

/-- A candidate whose whole text is `fioText` and that has no sub-elements. -/
def cardFio : Card :=
  { tagName := "LI", classList := [], textContent := fioText, innerText := fioText,
    clientHeight := 100, clientWidth := 300,
    q := fun _ => .ok none,
    qa := fun _ => .ok [] }

/-- A candidate whose only headline reads `Directeur chez Renault`. -/
def cardChez : Card :=
  { tagName := "LI", classList := [], textContent := "Directeur chez Renault", innerText := "",
    clientHeight := 100, clientWidth := 300,
    q := fun sel =>
      if sel = ".entity-result__primary-subtitle" then
        .ok (some (El.ofText "Directeur chez Renault" "Directeur chez Renault"))
      else .ok none,
    qa := fun _ => .ok [] }

/-- A candidate whose only headline reads `Product Designer at Figma`. -/
def cardFigma : Card :=
  { tagName := "LI", classList := [], textContent := "Product Designer at Figma", innerText := "",
    clientHeight := 100, clientWidth := 300,
    q := fun sel =>
      if sel = ".entity-result__primary-subtitle" then
        .ok (some (El.ofText "Product Designer at Figma" "Product Designer at Figma"))
      else .ok none,
    qa := fun _ => .ok [] }

/-- A Navigator name element with an empty text but a lead URL. -/
def elNavName : El := El.mk "" "" "https://www.linkedin.com/sales/lead/123" "" "" "" []

/-- A Navigator candidate whose first name selector matches `elNavName`:
the extracted name is empty while the profile URL is not. -/
def cardNavEmptyName : Card :=
  { tagName := "LI", classList := [], textContent := "", innerText := "",
    clientHeight := 100, clientWidth := 300,
    q := fun sel => if sel = ".result-lockup__name a" then .ok (some elNavName) else .ok none,
    qa := fun _ => .ok [] }

/-- The record the Navigator assembly builds from `cardNavEmptyName`. -/
def navEmptyNameRecord : NavRecord :=
  { name := "", profileUrl := "https://www.linkedin.com/sales/lead/123", title := "",
    company := "", location := "", industry := "", connectionDegree := "",
    sharedConnections := "" }

def elAlice : El := El.ofText "Alice Smith" "Alice Smith"

/-- A Primary candidate with a perfectly extractable name whose
`querySelectorAll` for profile links throws. -/
def cardUrlThrows : Card :=
  { tagName := "LI", classList := [], textContent := "Alice Smith profile card", innerText := "",
    clientHeight := 100, clientWidth := 300,
    q := fun sel => if sel = "span.entity-result__title-text a" then .ok (some elAlice) else .ok none,
    qa := fun sel => if sel = inProfileLinkSel then .error () else .ok [] }

/-- The same candidate with a working profile-link query. -/
def cardAlice : Card :=
  { tagName := "LI", classList := [], textContent := "Alice Smith profile card", innerText := "",
    clientHeight := 100, clientWidth := 300,
    q := fun sel => if sel = "span.entity-result__title-text a" then .ok (some elAlice) else .ok none,
    qa := fun _ => .ok [] }

/-- The record built from `cardAlice`. -/
def leadAlice : Lead :=
  { fullName := "Alice Smith", title := "", location := "", profileUrl := "", companyName := "" }

/-- A bare `div` candidate: every feature query misses and every scalar
feature is falsy. -/
def cardBare : Card :=
  { tagName := "DIV", classList := [], textContent := "", innerText := "",
    clientHeight := 0, clientWidth := 0,
    q := fun _ => .ok none, qa := fun _ => .ok [] }

/-- The feature vector computed for `cardBare` on the Primary variant. -/
def fvBare : FeatureVec :=
  { hasProfileLink := false, hasText := false, hasTitleElement := false,
    hasCardStructure := false, hasReasonableSize := false, hasProfileImage := false,
    hasSalesNavElements := true }

/-- A candidate all of whose DOM queries throw. -/
def cardThrow : Card :=
  { tagName := "DIV", classList := [], textContent := "", innerText := "",
    clientHeight := 0, clientWidth := 0,
    q := fun _ => .error (), qa := fun _ => .error () }

/-- An all-false feature vector. -/
def fvAllFalse : FeatureVec :=
  { hasProfileLink := false, hasText := false, hasTitleElement := false,
    hasCardStructure := false, hasReasonableSize := false, hasProfileImage := false,
    hasSalesNavElements := false }

/-! # Theorems

Shared helper lemmas first, then one theorem per specification claim. -/

/-! ### Helper lemmas: dedup -/

theorem mem_dedupSet (y : Nat) (l : List Nat) : y ∈ dedupSet l ↔ y ∈ l := by
  induction l using dedupSet.induct with
  | case1 => simp [dedupSet]
  | case2 x xs ih =>
    rw [dedupSet]
    by_cases hyx : y = x
    · subst hyx; simp
    · simp [hyx, ih, List.mem_filter]

theorem nodup_dedupSet (l : List Nat) : (dedupSet l).Nodup := by
  induction l using dedupSet.induct with
  | case1 => simp [dedupSet]
  | case2 x xs ih =>
    rw [dedupSet]
    refine List.nodup_cons.mpr ⟨?_, ih⟩
    intro hmem
    rw [mem_dedupSet] at hmem
    have := (List.mem_filter.mp hmem).2
    simp at this

theorem sublist_dedupSet (l : List Nat) : List.Sublist (dedupSet l) l := by
  induction l using dedupSet.induct with
  | case1 => simp [dedupSet]
  | case2 x xs ih =>
    rw [dedupSet]
    exact (ih.trans (List.filter_sublist xs)).cons₂ x

/-! ### Helper lemmas: CSV escaping -/

theorem replaceQuotes_flatMap (l : List Char) :
    replaceQuotes l = l.flatMap (fun c => if c = quoteC then [quoteC, quoteC] else [c]) := by
  induction l with
  | nil => rfl
  | cons c rest ih =>
    by_cases h : c = quoteC <;> simp [replaceQuotes, h, ih]

theorem length_le_replaceQuotes (l : List Char) : l.length ≤ (replaceQuotes l).length := by
  induction l with
  | nil => simp [replaceQuotes]
  | cons c rest ih =>
    by_cases h : c = quoteC <;> simp [replaceQuotes, h] <;> omega

/-! ### Helper lemmas: pump termination -/

theorem settleTick_of_attempts (fuel : Nat) : ∀ (env : Nat → PumpEnv) (s : PumpState),
    150 ≤ s.scrollAttempts + fuel → 1 ≤ fuel →
    ∃ n, n ≤ fuel ∧ settleTick env s fuel = some n := by
  induction fuel with
  | zero => intro env s h h1; omega
  | succ fuel ih =>
    intro env s h _
    by_cases hstop : pumpStops (env 0) (pumpStep (env 0) s) = true
    · exact ⟨1, by omega, by simp [settleTick, hstop]⟩
    · rw [Bool.not_eq_true] at hstop
      have hlt : (pumpStep (env 0) s).scrollAttempts < 150 := by
        simp [pumpStops, maxScrollAttempts, Bool.or_eq_false_iff] at hstop
        omega
      have hatt : (pumpStep (env 0) s).scrollAttempts = s.scrollAttempts + 1 := rfl
      have hf : 1 ≤ fuel := by omega
      obtain ⟨n, hn, heq⟩ := ih (fun k => env (k + 1)) (pumpStep (env 0) s) (by omega) hf
      refine ⟨n + 1, by omega, ?_⟩
      simp [settleTick, hstop, heq]

/-! ### Helper lemmas: record assembly -/

theorem processLeadCard_pushed_iff (card : Card) (l : Lead) :
    processLeadCard card = .pushed l ↔
      (buildLead card = .ok l ∧ (l.fullName ≠ "" ∨ l.profileUrl ≠ "")) := by
  cases hb : buildLead card with
  | error e => simp [processLeadCard, hb]
  | ok l0 =>
    by_cases hc : l0.fullName ≠ "" ∨ l0.profileUrl ≠ ""
    · simp only [processLeadCard, hb, if_pos hc]
      constructor
      · intro h; cases h; exact ⟨rfl, hc⟩
      · rintro ⟨h1, _⟩; cases h1; rfl
    · simp only [processLeadCard, hb, if_neg hc]
      constructor
      · intro h; cases h
      · rintro ⟨h1, h2⟩; cases h1; exact absurd h2 hc

theorem processNavCard_pushed_iff (card : Card) (r : NavRecord) :
    processNavCard card = .pushed r ↔
      (buildNavRecord card = .ok r ∧ r.name ≠ "") := by
  cases hb : buildNavRecord card with
  | error e => simp [processNavCard, hb]
  | ok r0 =>
    by_cases hc : r0.name ≠ ""
    · simp only [processNavCard, hb, if_pos hc]
      constructor
      · intro h; cases h; exact ⟨rfl, hc⟩
      · rintro ⟨h1, _⟩; cases h1; rfl
    · simp only [processNavCard, hb, if_neg hc]
      constructor
      · intro h; cases h
      · rintro ⟨h1, h2⟩; cases h1; exact absurd h2 hc

/-! ### Helper lemmas: classifier -/

theorem computeFeatures_primary_marker (card : Card) (f : FeatureVec)
    (h : computeFeatures false card = .ok f) : f.hasSalesNavElements = true := by
  unfold computeFeatures at h
  cases hp : profileLinkCheck false card with
  | error e => rw [hp] at h; simp at h
  | ok b =>
    rw [hp] at h
    cases hqt : card.q titleMarkerSel with
    | error e => rw [hqt] at h; simp at h
    | ok t =>
      rw [hqt] at h
      cases hqi : card.q imageSel with
      | error e => rw [hqi] at h; simp at h
      | ok im =>
        rw [hqi] at h
        simp only [salesNavMarkerCheck, Bool.not_false, if_true] at h
        cases h
        rfl

/-! ### Helper lemmas: headline extraction -/

theorem currentScan_no_current (els : List El)
    (h : ∀ el ∈ els,
      jsStartsWith (jsTrim (jsOr el.innerText el.textContent)) "Current:" = false) :
    currentScan els = .fall "" := by
  induction els with
  | nil => rfl
  | cons el rest ih =>
    have hel := h el (List.mem_cons_self el rest)
    rw [currentScan, if_neg ?_]
    · exact ih (fun e he => h e (List.mem_cons_of_mem el he))
    · rintro ⟨h1, h2⟩
      rw [hel] at h2
      cases h2

theorem headlineLoop_eq_spec (card : Card) : ∀ sels : List String,
    headlineSplitLoop card "" sels =
      (match headlineScanSpec (headlineTextsOfSels card sels) with
       | some tc => tc
       | none => ("", "")) := by
  intro sels
  induction sels with
  | nil => rfl
  | cons sel rest ih =>
    cases hq : card.q sel with
    | error e =>
      have htexts : headlineTextsOfSels card (sel :: rest) = headlineTextsOfSels card rest := by
        simp [headlineTextsOfSels, List.filterMap_cons, hq]
      rw [htexts]
      simpa [headlineSplitLoop, hq] using ih
    | ok elOpt =>
      cases elOpt with
      | none =>
        have htexts : headlineTextsOfSels card (sel :: rest) = headlineTextsOfSels card rest := by
          simp [headlineTextsOfSels, List.filterMap_cons, hq]
        rw [htexts]
        simpa [headlineSplitLoop, hq] using ih
      | some el =>
        have htexts : headlineTextsOfSels card (sel :: rest) =
            jsOr el.innerText el.textContent :: headlineTextsOfSels card rest := by
          simp [headlineTextsOfSels, List.filterMap_cons, hq]
        rw [htexts]
        simp only [headlineSplitLoop, hq]
        by_cases h2 : jsTrim (jsOr el.innerText el.textContent) = ""
        · rw [if_neg (by simp [h2]), headlineScanSpec, if_neg (by simp [h2])]
          exact ih
        · have h0 : jsOr el.innerText el.textContent ≠ "" := by
            intro he
            rw [he] at h2
            exact h2 rfl
          rw [if_pos ⟨h0, h2⟩, headlineScanSpec, if_pos h2]
          by_cases i1 : jsIncludes (jsTrim (jsOr el.innerText el.textContent)) " at "
          · simp [splitFirstDelim, headlineDelims, List.find?, i1]
          · by_cases i2 : jsIncludes (jsTrim (jsOr el.innerText el.textContent)) " @ "
            · simp [splitFirstDelim, headlineDelims, List.find?, i1, i2]
            · by_cases i3 : jsIncludes (jsTrim (jsOr el.innerText el.textContent)) ": "
              · simp [splitFirstDelim, headlineDelims, List.find?, i1, i2, i3]
              · simp only [if_neg i1, if_neg i2, if_neg i3]
                have hnone : splitFirstDelim (jsTrim (jsOr el.innerText el.textContent)) = none := by
                  simp [splitFirstDelim, headlineDelims, List.find?, i1, i2, i3]
                rw [hnone]
                exact ih

/-! ### The claims -/

/-- C1 (counterexample): the inclusion rule is not `name or profileUrl` on
the Secondary variant.  `cardNavEmptyName` yields a record with an empty
name but a non-empty profile URL, yet the Navigator assembler does not
append it (its push condition is `if (name)` alone). -/
theorem claimC1_counterexample :
    buildNavRecord cardNavEmptyName = Except.ok navEmptyNameRecord ∧
    navEmptyNameRecord.name = "" ∧
    navEmptyNameRecord.profileUrl ≠ "" ∧
    processNavCard cardNavEmptyName = CardOutcome.skippedEmpty :=
  ⟨rfl, rfl, by decide, rfl⟩

/-- C1 (amended): on the Primary variant a successfully built record is
appended iff its name or profile URL is non-empty; on the Secondary
(Navigator) variant it is appended iff its name alone is non-empty.
Consequently every record in either output satisfies
`name ≠ "" ∨ profileUrl ≠ ""`. -/
theorem claimC1_record_inclusion :
    (∀ (cards : List Card) (l : Lead), l ∈ assemblePrimary cards →
      (l.fullName ≠ "" ∨ l.profileUrl ≠ "")) ∧
    (∀ (cards : List Card) (r : NavRecord), r ∈ assembleNavigator cards → r.name ≠ "") ∧
    (∀ (card : Card) (l : Lead), processLeadCard card = .pushed l ↔
      (buildLead card = .ok l ∧ (l.fullName ≠ "" ∨ l.profileUrl ≠ ""))) ∧
    (∀ (card : Card) (r : NavRecord), processNavCard card = .pushed r ↔
      (buildNavRecord card = .ok r ∧ r.name ≠ "")) := by
  refine ⟨?_, ?_, processLeadCard_pushed_iff, processNavCard_pushed_iff⟩
  · intro cards l h
    rw [assemblePrimary, List.mem_filterMap] at h
    obtain ⟨c, _, hc⟩ := h
    cases hpc : processLeadCard c with
    | pushed l0 =>
      simp [hpc] at hc
      subst hc
      exact ((processLeadCard_pushed_iff c _).mp hpc).2
    | skippedEmpty => simp [hpc] at hc
    | errorSkipped => simp [hpc] at hc
  · intro cards r h
    rw [assembleNavigator, List.mem_filterMap] at h
    obtain ⟨c, _, hc⟩ := h
    cases hpc : processNavCard c with
    | pushed r0 =>
      simp [hpc] at hc
      subst hc
      exact ((processNavCard_pushed_iff c _).mp hpc).2
    | skippedEmpty => simp [hpc] at hc
    | errorSkipped => simp [hpc] at hc

/-- Witness for C1: a concrete Primary candidate that is pushed, with its
inclusion condition discharged. -/
theorem claimC1_witness :
    buildLead cardAlice = Except.ok leadAlice ∧
    (leadAlice.fullName ≠ "" ∨ leadAlice.profileUrl ≠ "") :=
  (claimC1_record_inclusion.2.2.1 cardAlice leadAlice).mp rfl

/-- C2 (counterexample): the Sales-Navigator marker weight (+2) is not
awarded only on the Secondary variant.  On the Primary variant the bare
candidate `cardBare` has every raw feature false, yet its computed feature
vector has `hasSalesNavElements = true` (the predicate is
`!isSalesNavigator || markers`) and its score is 2, where the claimed sum
is 0. -/
theorem claimC2_counterexample :
    computeFeatures false cardBare = Except.ok fvBare ∧
    fvBare.hasSalesNavElements = true ∧
    cardScore fvBare = 2 ∧
    specClaimedScore false fvBare = 0 ∧
    cardScore fvBare ≠ specClaimedScore false fvBare :=
  ⟨rfl, rfl, rfl, rfl, by decide⟩

/-- C2 (amended): the score is the stated sum of weights except that the
marker term (+2) is also awarded unconditionally on the Primary variant
(where the marker predicate is vacuously true); a candidate passes the
filter iff its feature evaluation does not throw and its score reaches the
variant threshold (3 Primary, 4 Secondary). -/
theorem claimC2_amended_scoring :
    (∀ (card : Card) (f : FeatureVec), computeFeatures false card = .ok f →
      f.hasSalesNavElements = true) ∧
    (∀ (isSN : Bool) (card : Card) (f : FeatureVec), computeFeatures isSN card = .ok f →
      cardScore f = specClaimedScore isSN f + (if isSN then 0 else 2)) ∧
    (∀ (isSN : Bool) (cards : List Card) (c : Card),
      c ∈ filterProfileCards isSN cards ↔
        (c ∈ cards ∧ ∃ f, computeFeatures isSN c = .ok f ∧ scoreThreshold isSN ≤ cardScore f)) := by
  refine ⟨computeFeatures_primary_marker, ?_, ?_⟩
  · intro isSN card f hf
    cases isSN with
    | false =>
      have hm := computeFeatures_primary_marker card f hf
      rcases f with ⟨b1, b2, b3, b4, b5, b6, b7⟩
      simp only at hm
      subst hm
      simp [cardScore, specClaimedScore]
    | true =>
      rcases f with ⟨b1, b2, b3, b4, b5, b6, b7⟩
      cases b7 <;> simp [cardScore, specClaimedScore]
  · intro isSN cards c
    rw [filterProfileCards, List.mem_filter]
    cases hcf : computeFeatures isSN c with
    | error e => simp [keepCard, hcf]
    | ok f => simp [keepCard, hcf]

/-- Witness for C2: the amended score identity evaluated on `cardBare`. -/
theorem claimC2_witness :
    fvBare.hasSalesNavElements = true ∧
    cardScore fvBare = specClaimedScore false fvBare + (if false then 0 else 2) :=
  ⟨claimC2_amended_scoring.1 cardBare fvBare rfl,
   claimC2_amended_scoring.2.1 false cardBare fvBare rfl⟩

/-- C3 (counterexample): the headline split does not test `" chez "` (nor
`" - "`), and a text matching no delimiter is skipped rather than kept as
the title: the headline `Directeur chez Renault` yields `("", "")`, not
`("Directeur", "Renault")`. -/
theorem claimC3_counterexample :
    jsIncludes "Directeur chez Renault" " chez " = true ∧
    extractMainHeadlineInfo cardChez = ("", "") ∧
    extractMainHeadlineInfo cardChez ≠ ("Directeur", "Renault") :=
  ⟨rfl, rfl, by decide⟩

/-- C3 (amended): when no sub-element text starts with `Current:`, the
headline stage scans the headline patterns in order and, for each text in
turn, tests exactly the delimiters `" at "`, `" @ "`, `": "` in that order;
the first text containing one of them is split there (both sides trimmed,
the company taken from the segment after the first delimiter occurrence),
and texts with no delimiter are skipped.  In particular
`Product Designer at Figma` yields title `Product Designer` and company
`Figma`. -/
theorem claimC3_headline_split :
    (∀ (card : Card) (els : List El), card.qa divPSpanSel = .ok els →
      (∀ el ∈ els,
        jsStartsWith (jsTrim (jsOr el.innerText el.textContent)) "Current:" = false) →
      extractMainHeadlineInfo card =
        (match headlineScanSpec (headlineTextsOf card) with
         | some tc => tc
         | none => ("", ""))) ∧
    extractMainHeadlineInfo cardFigma = ("Product Designer", "Figma") := by
  refine ⟨?_, rfl⟩
  intro card els hqa h
  simp only [extractMainHeadlineInfo, hqa, currentScan_no_current els h, headlineTextsOf]
  exact headlineLoop_eq_spec card headlineSelectors

/-- Witness for C3: the refinement applied to the concrete Figma card. -/
theorem claimC3_witness :
    extractMainHeadlineInfo cardFigma =
      (match headlineScanSpec (headlineTextsOf cardFigma) with
       | some tc => tc
       | none => ("", "")) :=
  claimC3_headline_split.1 cardFigma [] rfl (by simp)

/-- C4 (counterexample): a single field failure can discard the whole
candidate.  On `cardUrlThrows` the name cascade succeeds (`Alice Smith`)
but the profile-URL query throws, and the per-card handler skips the
candidate instead of resolving the field to the empty string. -/
theorem claimC4_counterexample :
    extractName cardUrlThrows = "Alice Smith" ∧
    cardUrlThrows.qa inProfileLinkSel = Except.error () ∧
    processLeadCard cardUrlThrows = CardOutcome.errorSkipped :=
  ⟨rfl, rfl, rfl⟩

/-- C4 (amended): on the Primary variant the name, title, company and
location cascades absorb their own exceptions (they are total in this
model), and a candidate is error-skipped exactly when the profile-URL
query — the one cascade with no try/catch — throws. -/
theorem claimC4_field_error_boundary (card : Card) :
    processLeadCard card = CardOutcome.errorSkipped ↔
      card.qa inProfileLinkSel = Except.error () := by
  cases hqa : card.qa inProfileLinkSel with
  | error e =>
    cases e
    simp [processLeadCard, buildLead, extractProfileUrlE, hqa]
  | ok links =>
    simp only [processLeadCard, buildLead, extractProfileUrlE, hqa]
    constructor
    · intro h
      split at h <;> simp at h
    · intro h
      simp at h

/-- Witness for C4: the boundary applied to the throwing candidate. -/
theorem claimC4_witness :
    processLeadCard cardUrlThrows = CardOutcome.errorSkipped :=
  (claimC4_field_error_boundary cardUrlThrows).mpr rfl

/-- C5: a candidate whose text is the
`Current: Senior Marketing Manager: Product Marketing & Sales Enablement
at Intuit` headline resolves through the `Current:` extraction cascade to
exactly the stated title (subtitle joined with a colon) and company. -/
theorem claimC5_current_role_example :
    jsIncludes (jsOr cardFio.textContent cardFio.innerText)
      "Current: Senior Marketing Manager: Product Marketing & Sales Enablement at Intuit" = true ∧
    extractCurrentRoleInfo cardFio =
      ("Senior Marketing Manager: Product Marketing & Sales Enablement", "Intuit") :=
  ⟨rfl, rfl⟩

/-- C6: the score is monotonic in the feature vector — flipping any single
false feature to true never decreases `cardScore`. -/
theorem claimC6_score_monotone (f : FeatureVec) (feat : ScoreFeature)
    (h : getFeature f feat = false) :
    cardScore f ≤ cardScore (setFeature f feat true) := by
  rcases f with ⟨b1, b2, b3, b4, b5, b6, b7⟩
  cases feat <;> simp [getFeature] at h <;> subst h <;> simp [cardScore, setFeature]

/-- Witness for C6: flipping the profile-link feature on the all-false
vector. -/
theorem claimC6_witness :
    getFeature fvAllFalse ScoreFeature.link = false ∧
    cardScore fvAllFalse ≤ cardScore (setFeature fvAllFalse ScoreFeature.link true) :=
  ⟨by decide, claimC6_score_monotone fvAllFalse ScoreFeature.link (by decide)⟩

/-- C7: the attempt counter grows by exactly one per tick, and for every
document behaviour the pump settles within 150 ticks (the hard cap makes
the last disjunct of the stop condition true at attempt 150 even if the
document height keeps growing). -/
theorem claimC7_pump_hard_cap :
    (∀ (e : PumpEnv) (s : PumpState), (pumpStep e s).scrollAttempts = s.scrollAttempts + 1) ∧
    (∀ (env : Nat → PumpEnv) (h0 r0 : Nat),
      ∃ n, n ≤ 150 ∧ settleTick env (pumpInit h0 r0) 150 = some n) := by
  refine ⟨fun e s => rfl, fun env h0 r0 => ?_⟩
  exact settleTick_of_attempts 150 env (pumpInit h0 r0) (by simp [pumpInit]) (by omega)

/-- C8: the merged-and-deduplicated candidate sequence has no duplicate
node identity, its length is at most the sum of the per-strategy match
counts, it is a sublist of the concatenated strategy results (so first-seen
order is preserved — insertion-ordered set semantics), and it keeps exactly
the merged elements. -/
theorem claimC8_locator_dedup (strategies : List (List Nat)) :
    (locatorMerge strategies).Nodup ∧
    (locatorMerge strategies).length ≤ (strategies.map List.length).sum ∧
    List.Sublist (locatorMerge strategies) strategies.flatten ∧
    (∀ x, x ∈ locatorMerge strategies ↔ x ∈ strategies.flatten) := by
  refine ⟨nodup_dedupSet _, ?_, sublist_dedupSet _, fun x => mem_dedupSet x _⟩
  calc (locatorMerge strategies).length ≤ strategies.flatten.length :=
        (sublist_dedupSet _).length_le
    _ = (strategies.map List.length).sum := by simp

/-- Witness for C8: the dedup invariants on a concrete overlapping merge. -/
theorem claimC8_witness :
    (locatorMerge [[1, 2], [2, 3], [3, 1]]).Nodup :=
  (claimC8_locator_dedup [[1, 2], [2, 3], [3, 1]]).1

/-- C9: a CSV field is changed by escaping iff it contains a comma, quote
or newline; in that case the result is the field wrapped in double quotes
with every internal quote doubled; and the book example evaluates as
stated. -/
theorem claimC9_csv_escaping :
    (∀ s : String, escapeCsvField s = s ↔ needsCsvQuoting s = false) ∧
    (∀ s : String, needsCsvQuoting s = true →
      (escapeCsvField s).data =
        quoteC :: (s.data.flatMap (fun c => if c = quoteC then [quoteC, quoteC] else [c]) ++ [quoteC])) ∧
    escapeCsvField "Smith, John \"The Rock\"" = "\"Smith, John \"\"The Rock\"\"\"" := by
  refine ⟨?_, ?_, rfl⟩
  · intro s
    constructor
    · intro heq
      by_contra hne
      rw [Bool.not_eq_false] at hne
      rw [escapeCsvField, if_pos hne] at heq
      have hd : quoteC :: (replaceQuotes s.data ++ [quoteC]) = s.data := congrArg String.data heq
      have hlen := congrArg List.length hd
      simp only [List.length_cons, List.length_append, List.length_singleton] at hlen
      have hle := length_le_replaceQuotes s.data
      omega
    · intro hno
      rw [escapeCsvField, if_neg (by simp [hno])]
  · intro s h
    rw [escapeCsvField, if_pos h]
    simp [replaceQuotes_flatMap]

/-- Witness for C9: both directions evaluated on concrete fields. -/
theorem claimC9_witness :
    escapeCsvField "ab" = "ab" ∧
    (escapeCsvField "a,b").data =
      quoteC :: ("a,b".data.flatMap (fun c => if c = quoteC then [quoteC, quoteC] else [c]) ++ [quoteC]) :=
  ⟨(claimC9_csv_escaping.1 "ab").mpr (by decide), claimC9_csv_escaping.2.1 "a,b" (by decide)⟩

/-- C10: a candidate whose feature evaluation throws is excluded by the
filter, the exception does not escape, and the candidates around it are
filtered exactly as they would be on their own. -/
theorem claimC10_filter_error_isolation (isSN : Bool) (pre post : List Card) (c : Card)
    (h : computeFeatures isSN c = .error ()) :
    filterProfileCards isSN (pre ++ c :: post) =
      filterProfileCards isSN pre ++ filterProfileCards isSN post := by
  simp [filterProfileCards, List.filter_append, List.filter_cons, keepCard, h]

/-- Witness for C10: the isolation applied to the all-throwing candidate
between two bare candidates. -/
theorem claimC10_witness :
    filterProfileCards false ([cardBare] ++ cardThrow :: [cardBare]) =
      filterProfileCards false [cardBare] ++ filterProfileCards false [cardBare] :=
  claimC10_filter_error_isolation false [cardBare] [cardBare] cardThrow rfl
